import Mathlib

/-!
Shallow embedding of `src/api/index.py` (NFQS organic-fishery certification
query API).  Python strings are modelled as Lean `String`, Python `date`
objects as the `Date` structure below, Python `time.time()` instants as `ℤ`
(only subtraction and order comparison against the TTL are applied to them),
and the module-level mutable dict `_cache` as an explicit `Cache` value that
is threaded through the functions.  The behaviour of the external libraries
(`requests`, `xml.etree.ElementTree`) is modelled by an oracle value
`Upstream` describing the outcome of the network call and of the XML parse;
exceptions raised by those libraries (and re-raised by `raise_for_status`)
are modelled with `Except`.
-/

/-- Model of Python `datetime.date`: a year/month/day triple.  All values of
this type produced by the embedding come from `yyyymmdd_to_date` and hence
satisfy `isRealCalendarDate`, so that the numeric key below is
order-isomorphic to Python date ordering. -/
structure Date where
  year : Nat
  month : Nat
  day : Nat
deriving DecidableEq, Repr

/-- Numeric key `yyyymmdd`; for real calendar dates (month ≤ 12, day ≤ 31)
comparison of keys agrees with lexicographic comparison of
(year, month, day), i.e. with Python date ordering. -/
def Date.key (d : Date) : Nat :=
  d.year * 10000 + d.month * 100 + d.day

instance : LT Date := ⟨fun a b => a.key < b.key⟩

instance : LE Date := ⟨fun a b => a.key ≤ b.key⟩

instance (a b : Date) : Decidable (a < b) :=
  inferInstanceAs (Decidable (a.key < b.key))

instance (a b : Date) : Decidable (a ≤ b) :=
  inferInstanceAs (Decidable (a.key ≤ b.key))

/-- Gregorian leap-year rule, as used by Python `datetime`. -/
def isLeap (y : Nat) : Bool :=
  (y % 4 == 0 && y % 100 != 0) || y % 400 == 0

/-- Number of days of month `m` in year `y` (Python `calendar` rule). -/
def daysInMonth (y m : Nat) : Nat :=
  if m = 2 then (if isLeap y then 29 else 28)
  else if m = 4 ∨ m = 6 ∨ m = 9 ∨ m = 11 then 30
  else 31

/-- The triple (y, m, d) is a real calendar date constructible as a Python
`datetime.date` (`MINYEAR = 1`, `MAXYEAR = 9999`). -/
abbrev isRealCalendarDate (y m d : Nat) : Prop :=
  1 ≤ y ∧ y ≤ 9999 ∧ 1 ≤ m ∧ m ≤ 12 ∧ 1 ≤ d ∧ d ≤ daysInMonth y m

/-- Value of a list of decimal digit characters read in base 10. -/
def digitsToNat (cs : List Char) : Nat :=
  cs.foldl (fun a c => a * 10 + (c.toNat - 48)) 0

/-- Drop leading whitespace characters. -/
def dropLeadingWs : List Char → List Char
  | [] => []
  | c :: cs => if c.isWhitespace then dropLeadingWs cs else c :: cs

/-- Model of Python `str.strip()`: drop trailing then leading whitespace.
(Defined by structural recursion so that it reduces inside the kernel;
Lean core `String.trim` uses well-founded recursion and does not.) -/
def pyStrip (cs : List Char) : List Char :=
  dropLeadingWs (dropLeadingWs cs.reverse).reverse

/-- Python `s.strip()` on `String`s. -/
def strip (s : String) : String := ⟨pyStrip s.data⟩

/-- Shape test of Python `len(s) == 8 and s.isdigit()` on the stripped
token. -/
abbrev shapeOk (t : List Char) : Prop :=
  t.length = 8 ∧ t.all Char.isDigit = true

/-- Year field of an 8-digit token: first four digits (`strptime` matches
`%Y` against exactly four digits here). -/
abbrev readY (t : List Char) : Nat := digitsToNat (t.take 4)

/-- Month field: digits five and six. -/
abbrev readM (t : List Char) : Nat := digitsToNat ((t.drop 4).take 2)

/-- Day field: digits seven and eight. -/
abbrev readD (t : List Char) : Nat := digitsToNat (t.drop 6)

/-- Embedding of `yyyymmdd_to_date` (src/api/index.py:30-39).  Mirrors the
source: empty string → `None`; strip; length-8 / all-digits test; then
`datetime.strptime(s, "%Y%m%d")`, which on an 8-digit string splits it
4-2-2 and succeeds exactly when the split forms a real calendar date,
every failure being caught and turned into `None`. -/
def yyyymmdd_to_date (s : String) : Option Date :=
  if s = "" then none
  else
    let t := pyStrip s.data
    if shapeOk t then
      if isRealCalendarDate (readY t) (readM t) (readD t) then
        some ⟨readY t, readM t, readD t⟩
      else none
    else none

/-- Embedding of `validity_status` (src/api/index.py:42-61).  The Python
default argument `today=None`/`date.today()` is modelled by the caller
always passing the reference date explicitly. -/
def validity_status (vfrom vto : String) (today : Date) : String :=
  match yyyymmdd_to_date vfrom, yyyymmdd_to_date vto with
  | some f, some t =>
    if today < f then "FUTURE"
    else if t < today then "EXPIRED"
    else "VALID"
  | _, _ => "UNKNOWN"

/-- Zero-padded two-digit rendering of a number below 100. -/
def pad2 (n : Nat) : String :=
  (if n < 10 then "0" else "") ++ Nat.repr n

/-- Zero-padded four-digit rendering of a number below 10000. -/
def pad4 (n : Nat) : String :=
  (if n < 10 then "000" else if n < 100 then "00" else if n < 1000 then "0" else "")
    ++ Nat.repr n

/-- Python `date.isoformat()`: `YYYY-MM-DD`. -/
def Date.isoformat (d : Date) : String :=
  pad4 d.year ++ "-" ++ pad2 d.month ++ "-" ++ pad2 d.day

/-- Embedding of `format_date_yyyy_mm_dd` (src/api/index.py:64-67):
`d.isoformat() if d else (s or "")`. -/
def format_date_yyyy_mm_dd (s : String) : String :=
  match yyyymmdd_to_date s with
  | some d => d.isoformat
  | none => if s = "" then "" else s

/-- Python `(s or "").strip().lower()` (src/api/index.py:70-71).  Lowering is
modelled per character with `Char.toLower` (ASCII case folding), the
granularity at which the repository uses it. -/
def safe_lower (s : String) : String :=
  ⟨(pyStrip s.data).map Char.toLower⟩

/-- `needle` occurs at the start of `hay`. -/
def startsWithChars : List Char → List Char → Bool
  | [], _ => true
  | _ :: _, [] => false
  | c :: cs, d :: ds => c == d && startsWithChars cs ds

/-- `needle` occurs somewhere in `hay` (Python `needle in hay` on strings). -/
def hasSubChars (needle : List Char) : List Char → Bool
  | [] => startsWithChars needle []
  | c :: t => startsWithChars needle (c :: t) || hasSubChars needle t

/-- Python string membership `needle in hay`. -/
def pyIn (needle hay : String) : Bool :=
  hasSubChars needle.data hay.data

/-- One certification record, the flat dict built by `parse_items`
(src/api/index.py:103-115).  Every value under those keys is a string
(possibly empty), so the record is a structure of eleven strings. -/
structure Item where
  jisoknm : String
  codeknm : String
  goodknm : String
  certno : String
  custkfirm : String
  headknm : String
  resino : String
  tel : String
  jisokaddr : String
  vdatefrom : String
  vdateto : String
deriving DecidableEq, Repr

/-- Embedding of `build_haystack` (src/api/index.py:74-84):
`" ".join([...8 fields...]).lower()`. -/
def build_haystack (it : Item) : String :=
  ⟨(String.intercalate " "
      [it.jisoknm, it.codeknm, it.goodknm, it.certno,
       it.custkfirm, it.headknm, it.jisokaddr, it.tel]).data.map Char.toLower⟩

/-- The annotated copy `it2 = dict(it)` with the three added keys
(src/api/index.py:186-194 and 257-260): the base record is embedded
unchanged and the annotations live beside it, never inside it. -/
structure AnnItem where
  item : Item
  validity : String
  vdatefrom_iso : String
  vdateto_iso : String
deriving DecidableEq, Repr

/-- Build the annotated copy of a record, as both endpoints do. -/
def annotate (today : Date) (it : Item) : AnnItem :=
  { item := it
  , validity := validity_status it.vdatefrom it.vdateto today
  , vdatefrom_iso := format_date_yyyy_mm_dd it.vdatefrom
  , vdateto_iso := format_date_yyyy_mm_dd it.vdateto }

/-- Result of `parse_items` (src/api/index.py:96-117): stripped header
fields plus the record list. -/
structure Fetched where
  resultCode : String
  resultMsg : String
  items : List Item
deriving DecidableEq, Repr

/-- The module-level mutable dict `_cache = {"ts": 0.0, "items": []}`
(src/api/index.py:24), made explicit. -/
structure Cache where
  ts : ℤ
  items : List Item
deriving DecidableEq

/-- Exceptions that the upstream call can raise: transport-level failures
(`requests` timeout / connection error, and the `HTTPError` raised by
`raise_for_status` on a non-2xx status) and `xml.etree.ElementTree`
parse errors on a malformed payload.  Nothing in `src/api/index.py`
catches either kind. -/
inductive UpError where
  | transport (msg : String)
  | malformed (msg : String)
deriving DecidableEq, Repr

/-- Oracle describing one upstream interaction: either the transport layer
fails outright, or an HTTP response with a status code arrives whose body
is either malformed XML or a well-formed document with header result
code/message and an item list. -/
inductive XmlBody where
  | malformedXml (msg : String)
  | wellFormed (resultCode resultMsg : String) (items : List Item)
deriving DecidableEq, Repr

inductive Upstream where
  | transportFail (msg : String)
  | httpResponse (status : Nat) (body : XmlBody)
deriving DecidableEq, Repr

/-- Embedding of `parse_items(fetch_xml())` (src/api/index.py:90-117).
`fetch_xml` raises on transport failure and, via `raise_for_status`, on an
HTTP status of 400 or above; `parse_items` raises on malformed XML and
otherwise strips the header fields (`findtext(...) or ""` then `.strip()`).
-/
def fetchParse (u : Upstream) : Except UpError Fetched :=
  match u with
  | .transportFail m => .error (.transport m)
  | .httpResponse status body =>
    if 400 ≤ status then .error (.transport ("HTTP " ++ Nat.repr status))
    else
      match body with
      | .malformedXml m => .error (.malformed m)
      | .wellFormed c m items => .ok ⟨strip c, strip m, items⟩

/-- The cache-hit test of src/api/index.py:122:
`(not force) and _cache["items"] and (now - _cache["ts"] < CACHE_TTL_SECONDS)`.
Note the truthiness test on the list: an empty snapshot never hits. -/
abbrev cacheHit (st : Cache) (force : Bool) (now : ℤ) : Prop :=
  force = false ∧ st.items ≠ [] ∧ now - st.ts < 60

/-- The fetch path of `get_items_cached` (src/api/index.py:125-131): parse
the fetched XML (exceptions propagate), return a non-"00" result verbatim
without touching the cache, and on success install the new snapshot and
timestamp. -/
def refresh (st : Cache) (now : ℤ) (u : Upstream) : Except UpError (Fetched × Cache) :=
  match fetchParse u with
  | .error e => .error e
  | .ok parsed =>
    if parsed.resultCode ≠ "00" then .ok (parsed, st)
    else .ok (parsed, ⟨now, parsed.items⟩)

/-- Embedding of `get_items_cached` (src/api/index.py:120-131).  On a cache
hit it returns the synthetic `{"resultCode": "00", "resultMsg": "CACHED"}`
envelope around the stored items without consulting the upstream oracle. -/
def get_items_cached (st : Cache) (force : Bool) (now : ℤ) (u : Upstream) :
    Except UpError (Fetched × Cache) :=
  if cacheHit st force now then .ok (⟨"00", "CACHED", st.items⟩, st)
  else refresh st now u

/-- Aggregate counts returned by `compute_counts` (src/api/index.py:134-146). -/
structure Counts where
  rows_total : Nat
  rows_valid : Nat
  rows_unknown : Nat
  rows_expired : Nat
  rows_future : Nat
deriving DecidableEq, Repr

def zeroCounts : Counts := ⟨0, 0, 0, 0, 0⟩

/-- Embedding of `compute_counts` (src/api/index.py:134-146).  The Python
loop increments one counter per item according to `validity_status`; that
is the same as counting the items satisfying each status. -/
def compute_counts (today : Date) (items : List Item) : Counts :=
  { rows_total := items.length
  , rows_valid := items.countP (fun it => validity_status it.vdatefrom it.vdateto today == "VALID")
  , rows_unknown := items.countP (fun it => validity_status it.vdatefrom it.vdateto today == "UNKNOWN")
  , rows_expired := items.countP (fun it => validity_status it.vdatefrom it.vdateto today == "EXPIRED")
  , rows_future := items.countP (fun it => validity_status it.vdatefrom it.vdateto today == "FUTURE") }

/-- The institution filter block shared by both endpoints
(src/api/index.py:176-178 and 230-232). -/
def jisoknm_filter (jisoknm : String) (items : List Item) : List Item :=
  if strip jisoknm ≠ "" then
    items.filter (fun it => pyIn (safe_lower jisoknm) (safe_lower it.jisoknm))
  else items

/-- Body of the `/api/search` response (src/api/index.py:196-202); the
purely decorative `today` echo field is omitted. -/
structure SearchResponse where
  resultCode : String
  resultMsg : String
  counts : Counts
  items : List AnnItem
deriving DecidableEq, Repr

/-- Embedding of the `search` endpoint (src/api/index.py:157-202).  The two
`date.today()` calls in the endpoint happen within one request and are
modelled as the single reference date `today`; the upstream interaction of
this request is the oracle `u`.  An exception escaping the handler is the
`.error` case. -/
def search (st : Cache) (keyword jisoknm : String) (force : Bool) (now : ℤ)
    (today : Date) (u : Upstream) : Except UpError (SearchResponse × Cache) :=
  match get_items_cached st force now u with
  | .error e => .error e
  | .ok (raw, st2) =>
    if raw.resultCode ≠ "00" then
      .ok ({ resultCode := raw.resultCode, resultMsg := raw.resultMsg
           , counts := zeroCounts, items := [] }, st2)
    else
      let items1 := jisoknm_filter jisoknm raw.items
      let items2 :=
        if strip keyword ≠ "" then
          items1.filter (fun it => pyIn (safe_lower keyword) (build_haystack it))
        else items1
      let out := items2.map (annotate today)
      .ok ({ resultCode := "00", resultMsg := raw.resultMsg
           , counts := compute_counts today (out.map (fun a => a.item))
           , items := out }, st2)

/-- Sort key of `expiry.key_fn` (src/api/index.py:247-249):
`yyyymmdd_to_date(it.get("vdatefrom","")) or date(1900, 1, 1)`, compared as
a Python date, i.e. by `Date.key`. -/
def key_fn (it : Item) : Nat :=
  (((yyyymmdd_to_date it.vdatefrom).getD ⟨1900, 1, 1⟩) : Date).key

/-- The ordering used to model `candidates.sort(key=key_fn, reverse=True)`:
`a` may come before `b` when its key is at least `b`'s.  A stable
insertion sort under this relation computes exactly Python's stable
descending-by-key sort. -/
def certOrd (a b : Item) : Prop := key_fn b ≤ key_fn a

instance : DecidableRel certOrd := fun a b => Nat.decLe (key_fn b) (key_fn a)

instance : IsTotal Item certOrd := ⟨fun a b => Nat.le_total (key_fn b) (key_fn a)⟩

instance : IsTrans Item certOrd := ⟨fun _ _ _ hab hbc => Nat.le_trans hbc hab⟩

/-- Model of src/api/index.py:251: `candidates.sort(key=key_fn, reverse=True)`. -/
def sortCandidates (l : List Item) : List Item :=
  List.insertionSort certOrd l

/-- Model of src/api/index.py:251-252: the record picked from a candidate
list — `None` exactly when the list is empty (which the source tests
before sorting), otherwise the head of the sorted list. -/
def pickCandidate (l : List Item) : Option Item :=
  (sortCandidates l).head?

/-- Body of the `/api/expiry` response (src/api/index.py:219-273); the
`today` echo field is omitted, and the keys absent from the not-found and
failure responses are modelled as `""` / `none`. -/
structure ExpiryResponse where
  resultCode : String
  resultMsg : String
  found : Bool
  expiry_date : String
  validity : String
  item : Option AnnItem
deriving DecidableEq, Repr

/-- Embedding of the `expiry` endpoint (src/api/index.py:205-273). -/
def expiry (st : Cache) (certno jisoknm : String) (force : Bool) (now : ℤ)
    (today : Date) (u : Upstream) : Except UpError (ExpiryResponse × Cache) :=
  match get_items_cached st force now u with
  | .error e => .error e
  | .ok (raw, st2) =>
    if raw.resultCode ≠ "00" then
      .ok ({ resultCode := raw.resultCode, resultMsg := raw.resultMsg
           , found := false, expiry_date := "", validity := "", item := none }, st2)
    else
      let items1 := jisoknm_filter jisoknm raw.items
      let cno := strip certno
      let candidates := items1.filter (fun it => strip it.certno == cno)
      match pickCandidate candidates with
      | none =>
        .ok ({ resultCode := "00", resultMsg := "OK"
             , found := false, expiry_date := "", validity := "", item := none }, st2)
      | some picked =>
        let stv := validity_status picked.vdatefrom picked.vdateto today
        let ann := annotate today picked
        .ok ({ resultCode := "00", resultMsg := "OK"
             , found := true, expiry_date := ann.vdateto_iso, validity := stv
             , item := some ann }, st2)

deriving instance DecidableEq for Except

/-- A record with every field empty except the given certificate number and
validity dates; used for concrete witnesses. -/
def mkItem (certno vdatefrom vdateto : String) : Item :=
  { jisoknm := "", codeknm := "", goodknm := "", certno := certno
  , custkfirm := "", headknm := "", resino := "", tel := ""
  , jisokaddr := "", vdatefrom := vdatefrom, vdateto := vdateto }

/-- Unfolded form of the parser on a non-empty input. -/
lemma yyyymmdd_eq (s : String) (hs : ¬ s = "") :
    yyyymmdd_to_date s =
      (if shapeOk (pyStrip s.data) then
        (if isRealCalendarDate (readY (pyStrip s.data)) (readM (pyStrip s.data))
              (readD (pyStrip s.data)) then
          some ⟨readY (pyStrip s.data), readM (pyStrip s.data), readD (pyStrip s.data)⟩
        else none)
      else none) := by
  unfold yyyymmdd_to_date
  rw [if_neg hs]

/-- Claim C5: for every input string, the date parser returns a calendar
date if and only if the token, after trimming, is exactly 8 characters, all
decimal digits, and forms a real calendar date under YYYYMMDD
interpretation; every other input yields no date.  (The parser is a total
Lean function, so it cannot raise.) -/
theorem C5_theorem (s : String) :
    (∀ dt : Date, yyyymmdd_to_date s = some dt →
       shapeOk (pyStrip s.data) ∧ isRealCalendarDate dt.year dt.month dt.day ∧
       dt = ⟨readY (pyStrip s.data), readM (pyStrip s.data), readD (pyStrip s.data)⟩) ∧
    (shapeOk (pyStrip s.data) →
       isRealCalendarDate (readY (pyStrip s.data)) (readM (pyStrip s.data))
         (readD (pyStrip s.data)) →
       yyyymmdd_to_date s =
         some ⟨readY (pyStrip s.data), readM (pyStrip s.data), readD (pyStrip s.data)⟩) ∧
    ((¬ shapeOk (pyStrip s.data) ∨
      ¬ isRealCalendarDate (readY (pyStrip s.data)) (readM (pyStrip s.data))
          (readD (pyStrip s.data))) →
       yyyymmdd_to_date s = none) := by
  by_cases hs : s = ""
  · subst hs
    refine ⟨?_, ?_, ?_⟩
    · intro dt h
      simp [yyyymmdd_to_date] at h
    · intro h1 _
      exact absurd h1 (by decide)
    · intro _
      rfl
  · refine ⟨?_, ?_, ?_⟩ <;> rw [yyyymmdd_eq s hs]
    · intro dt h
      split_ifs at h with h1 h2
      rw [Option.some_inj] at h
      exact ⟨h1, h ▸ h2, h.symm⟩
    · intro h1 h2
      rw [if_pos h1, if_pos h2]
    · intro h
      rcases h with h | h
      · rw [if_neg h]
      · split_ifs with h1
        all_goals rfl

/-- Claim C5 witness: the theorem applied to a real leap date and to an
impossible date. -/
theorem C5_witness :
    yyyymmdd_to_date "20240229" = some ⟨2024, 2, 29⟩ ∧
    yyyymmdd_to_date "20230229" = none := by
  constructor
  · exact ( C5_theorem "20240229").2.1 (by decide) (by decide)
  · exact ( C5_theorem "20230229").2.2 (Or.inr (by decide))

/-- Claim C3: for every pair of date tokens and reference date, the
classifier returns UNKNOWN as soon as either token fails to parse;
otherwise FUTURE when the reference is before the from-date, EXPIRED when
it is after the to-date, and VALID in between, both boundaries
inclusive. -/
theorem C3_theorem (vfrom vto : String) (today : Date) :
    ((yyyymmdd_to_date vfrom = none ∨ yyyymmdd_to_date vto = none) →
       validity_status vfrom vto today = "UNKNOWN") ∧
    (∀ f t : Date, yyyymmdd_to_date vfrom = some f → yyyymmdd_to_date vto = some t →
       ((today < f → validity_status vfrom vto today = "FUTURE") ∧
        (¬ today < f → t < today → validity_status vfrom vto today = "EXPIRED") ∧
        (f ≤ today → today ≤ t → validity_status vfrom vto today = "VALID"))) := by
  constructor
  · intro h
    rcases h with h | h
    · simp [validity_status, h]
    · cases hf : yyyymmdd_to_date vfrom <;> simp [validity_status, hf, h]
  · intro f t hf ht
    refine ⟨?_, ?_, ?_⟩
    · intro hfut
      simp only [validity_status, hf, ht]
      rw [if_pos hfut]
    · intro h1 h2
      simp only [validity_status, hf, ht]
      rw [if_neg h1, if_pos h2]
    · intro h1 h2
      have n1 : ¬ today < f := Nat.not_lt.mpr h1
      have n2 : ¬ t < today := Nat.not_lt.mpr h2
      simp only [validity_status, hf, ht]
      rw [if_neg n1, if_neg n2]

/-- Claim C3 witness: the theorem applied at concrete tokens covering the
UNKNOWN, FUTURE, EXPIRED and both inclusive-boundary VALID outcomes. -/
theorem C3_witness :
    validity_status "banana" "20241231" ⟨2024, 6, 1⟩ = "UNKNOWN" ∧
    validity_status "20240101" "20241231" ⟨2023, 12, 31⟩ = "FUTURE" ∧
    validity_status "20240101" "20241231" ⟨2025, 1, 1⟩ = "EXPIRED" ∧
    validity_status "20240101" "20241231" ⟨2024, 1, 1⟩ = "VALID" ∧
    validity_status "20240101" "20241231" ⟨2024, 12, 31⟩ = "VALID" := by
  refine ⟨?_, ?_, ?_, ?_, ?_⟩
  · exact ( C3_theorem "banana" "20241231" ⟨2024, 6, 1⟩).1 (Or.inl (by decide))
  · exact (( C3_theorem "20240101" "20241231" ⟨2023, 12, 31⟩).2 ⟨2024, 1, 1⟩ ⟨2024, 12, 31⟩
      (by decide) (by decide)).1 (by decide)
  · exact (( C3_theorem "20240101" "20241231" ⟨2025, 1, 1⟩).2 ⟨2024, 1, 1⟩ ⟨2024, 12, 31⟩
      (by decide) (by decide)).2.1 (by decide) (by decide)
  · exact (( C3_theorem "20240101" "20241231" ⟨2024, 1, 1⟩).2 ⟨2024, 1, 1⟩ ⟨2024, 12, 31⟩
      (by decide) (by decide)).2.2 (by decide) (by decide)
  · exact (( C3_theorem "20240101" "20241231" ⟨2024, 12, 31⟩).2 ⟨2024, 1, 1⟩ ⟨2024, 12, 31⟩
      (by decide) (by decide)).2.2 (by decide) (by decide)

/-- Claim C10: the human-readable rendering of a date token is the ISO
hyphenated date when the token parses, the empty string when the token is
empty, and the original token unchanged when the token is non-empty but
unparseable. -/
theorem C10_theorem (s : String) :
    (∀ d : Date, yyyymmdd_to_date s = some d → format_date_yyyy_mm_dd s = d.isoformat) ∧
    (s = "" → format_date_yyyy_mm_dd s = "") ∧
    (s ≠ "" → yyyymmdd_to_date s = none → format_date_yyyy_mm_dd s = s) := by
  refine ⟨?_, ?_, ?_⟩
  · intro d h
    unfold format_date_yyyy_mm_dd
    rw [h]
  · intro h
    subst h
    rfl
  · intro h1 h2
    unfold format_date_yyyy_mm_dd
    rw [h2, if_neg h1]

/-- Claim C10 witness: the theorem applied to a parseable token, the empty
token, a whitespace-only token and a non-date token. -/
theorem C10_witness :
    format_date_yyyy_mm_dd "20240101" = "2024-01-01" ∧
    format_date_yyyy_mm_dd "" = "" ∧
    format_date_yyyy_mm_dd "  " = "  " ∧
    format_date_yyyy_mm_dd "abc" = "abc" := by
  refine ⟨?_, ?_, ?_, ?_⟩
  · exact ( C10_theorem "20240101").1 ⟨2024, 1, 1⟩ (by decide)
  · exact ( C10_theorem "").2.1 rfl
  · exact ( C10_theorem "  ").2.2 (by decide) (by decide)
  · exact ( C10_theorem "abc").2.2 (by decide) (by decide)

/-- A call with `force = true`, with an empty stored snapshot, or at or past
the TTL boundary takes the fetch path of `get_items_cached`. -/
lemma not_cacheHit_of (st : Cache) (force : Bool) (now : ℤ)
    (h : force = true ∨ st.items = [] ∨ ¬ now - st.ts < 60) :
    ¬ cacheHit st force now := by
  rintro ⟨hf, hi, ht⟩
  rcases h with h | h | h
  · rw [h] at hf
    exact absurd hf (by decide)
  · exact hi h
  · exact h ht

/-- On the fetch path, `get_items_cached` is the fetch itself. -/
lemma get_eq_refresh (st : Cache) (force : Bool) (now : ℤ) (u : Upstream)
    (h : force = true ∨ st.items = [] ∨ ¬ now - st.ts < 60) :
    get_items_cached st force now u = refresh st now u := by
  unfold get_items_cached
  rw [if_neg (not_cacheHit_of st force now h)]

/-- Claim C1 counterexample: with a snapshot that exists but is empty
(`_cache = {"ts": 0, "items": []}`), a `get(force=false)` call at `now = 1`,
well within the 60-second TTL, still consults the upstream fetcher (its
transport failure surfaces) instead of returning the snapshot tagged
CACHED, because the code tests the truthiness of `_cache["items"]`. -/
theorem C1_counterexample :
    ((1 : ℤ) - (0 : ℤ) < 60) ∧
    get_items_cached ⟨0, []⟩ false 1 (.transportFail "boom") = .error (.transport "boom") ∧
    get_items_cached ⟨0, []⟩ false 1 (.transportFail "boom") ≠
      .ok (⟨"00", "CACHED", []⟩, ⟨0, []⟩) := by
  exact ⟨by decide, by decide, by decide⟩

/-- Claim C1 as amended: while a NON-EMPTY snapshot exists and
`now - fetchedAt < ttl`, `get(force=false)` returns the existing snapshot
tagged with the synthetic CACHED status, independently of the upstream
oracle; a call with `force=true`, with an empty snapshot, or at or past TTL
expiry always takes the fetch path (its outcome is exactly that of the
upstream fetch). -/
theorem C1_theorem (st : Cache) (force : Bool) (now : ℤ) (u : Upstream) :
    (force = false → st.items ≠ [] → now - st.ts < 60 →
       get_items_cached st force now u = .ok (⟨"00", "CACHED", st.items⟩, st)) ∧
    (force = true ∨ st.items = [] ∨ ¬ now - st.ts < 60 →
       get_items_cached st force now u = refresh st now u) := by
  constructor
  · intro h1 h2 h3
    unfold get_items_cached
    rw [if_pos ⟨h1, h2, h3⟩]
  · intro h
    exact get_eq_refresh st force now u h

/-- Claim C1 witness: a concrete in-TTL hit with a non-empty snapshot never
sees the upstream transport failure, and the same state with `force=true`
takes the fetch path. -/
theorem C1_witness :
    get_items_cached ⟨0, [mkItem "a" "20240101" "20241231"]⟩ false 30 (.transportFail "x") =
      .ok (⟨"00", "CACHED", [mkItem "a" "20240101" "20241231"]⟩,
           ⟨0, [mkItem "a" "20240101" "20241231"]⟩) ∧
    get_items_cached ⟨0, [mkItem "a" "20240101" "20241231"]⟩ true 30 (.transportFail "x") =
      refresh ⟨0, [mkItem "a" "20240101" "20241231"]⟩ 30 (.transportFail "x") := by
  constructor
  · exact (C1_theorem ⟨0, [mkItem "a" "20240101" "20241231"]⟩ false 30
      (.transportFail "x")).1 rfl (by decide) (by decide)
  · exact (C1_theorem ⟨0, [mkItem "a" "20240101" "20241231"]⟩ true 30
      (.transportFail "x")).2 (Or.inl rfl)

/-- Claim C2: whenever a refresh actually happens (forced, empty snapshot,
or TTL expired) and the upstream fetch parses to a non-"00" result code,
`get_items_cached` returns that parsed result — code, message and all —
verbatim, and the stored snapshot and timestamp are exactly the ones from
before the call. -/
theorem C2_theorem (st : Cache) (force : Bool) (now : ℤ) (u : Upstream) (parsed : Fetched)
    (h1 : fetchParse u = .ok parsed) (h2 : parsed.resultCode ≠ "00")
    (h3 : force = true ∨ st.items = [] ∨ ¬ now - st.ts < 60) :
    get_items_cached st force now u = .ok (parsed, st) := by
  rw [get_eq_refresh st force now u h3]
  unfold refresh
  rw [h1]
  exact if_pos h2

/-- Claim C2 witness: a forced refresh whose upstream reports result code
"99" returns it verbatim and leaves the stale snapshot and its timestamp
in place. -/
theorem C2_witness :
    get_items_cached ⟨5, [mkItem "a" "" ""]⟩ true 100
        (.httpResponse 200 (.wellFormed "99" "ERR" [])) =
      .ok (⟨"99", "ERR", []⟩, ⟨5, [mkItem "a" "" ""]⟩) := by
  exact C2_theorem ⟨5, [mkItem "a" "" ""]⟩ true 100
    (.httpResponse 200 (.wellFormed "99" "ERR" [])) ⟨"99", "ERR", []⟩
    (by decide) (by decide) (Or.inl rfl)

/-- Claim C6 counterexample: a transport failure, a malformed payload, and
a non-2xx HTTP status each propagate out of the `search` endpoint as an
exception (`Except.error`), not as a structured non-success 200 response —
no handler in src/api/index.py catches them. -/
theorem C6_counterexample :
    search ⟨0, []⟩ "" "" false 1 ⟨2025, 1, 1⟩ (.transportFail "timeout") =
      .error (.transport "timeout") ∧
    search ⟨0, []⟩ "" "" false 1 ⟨2025, 1, 1⟩ (.httpResponse 200 (.malformedXml "bad")) =
      .error (.malformed "bad") ∧
    search ⟨0, []⟩ "" "" false 1 ⟨2025, 1, 1⟩ (.httpResponse 500 (.wellFormed "00" "OK" [])) =
      .error (.transport "HTTP 500") := by
  exact ⟨by decide, by decide, by decide⟩

/-- Claim C6 as amended: on the fetch path, only an upstream-REPORTED
non-success result code in a well-formed payload surfaces as a structured
non-success response (a 200 with that code, empty item list and zeroed
counts, and an untouched cache); transport-level failures and malformed
payloads escape the endpoints as exceptions. -/
theorem C6_theorem (st : Cache) (kw jn : String) (force : Bool) (now : ℤ) (today : Date)
    (u : Upstream) (e : UpError) (parsed : Fetched)
    (hmiss : force = true ∨ st.items = [] ∨ ¬ now - st.ts < 60) :
    (fetchParse u = .error e →
       search st kw jn force now today u = .error e ∧
       expiry st kw jn force now today u = .error e) ∧
    (fetchParse u = .ok parsed → parsed.resultCode ≠ "00" →
       search st kw jn force now today u =
         .ok ({ resultCode := parsed.resultCode, resultMsg := parsed.resultMsg
              , counts := zeroCounts, items := [] }, st) ∧
       expiry st kw jn force now today u =
         .ok ({ resultCode := parsed.resultCode, resultMsg := parsed.resultMsg
              , found := false, expiry_date := "", validity := "", item := none }, st)) := by
  constructor
  · intro he
    have hg : get_items_cached st force now u = .error e := by
      rw [get_eq_refresh st force now u hmiss]
      unfold refresh
      rw [he]
    constructor
    · unfold search
      rw [hg]
    · unfold expiry
      rw [hg]
  · intro hok hcode
    have hg : get_items_cached st force now u = .ok (parsed, st) := by
      rw [get_eq_refresh st force now u hmiss]
      unfold refresh
      rw [hok]
      exact if_pos hcode
    constructor
    · unfold search
      rw [hg]
      dsimp only
      rw [if_pos hcode]
    · unfold expiry
      rw [hg]
      dsimp only
      rw [if_pos hcode]

/-- Claim C6 witness: the amended theorem at concrete inputs — a transport
failure escapes both endpoints, and an upstream-reported "03" surfaces as
a structured empty-and-zeroed response. -/
theorem C6_witness :
    search ⟨0, []⟩ "" "" true 1 ⟨2025, 1, 1⟩ (.transportFail "t") = .error (.transport "t") ∧
    search ⟨0, []⟩ "" "" true 1 ⟨2025, 1, 1⟩
        (.httpResponse 200 (.wellFormed "03" "SERVICE ERROR" [mkItem "z" "" ""])) =
      .ok ({ resultCode := "03", resultMsg := "SERVICE ERROR"
           , counts := zeroCounts, items := [] }, ⟨0, []⟩) := by
  constructor
  · exact ((C6_theorem ⟨0, []⟩ "" "" true 1 ⟨2025, 1, 1⟩ (.transportFail "t")
      (.transport "t") ⟨"", "", []⟩ (Or.inl rfl)).1 (by decide)).1
  · exact ((C6_theorem ⟨0, []⟩ "" "" true 1 ⟨2025, 1, 1⟩
      (.httpResponse 200 (.wellFormed "03" "SERVICE ERROR" [mkItem "z" "" ""]))
      (.transport "t") ⟨"03", "SERVICE ERROR", [mkItem "z" "" ""]⟩
      (Or.inl rfl)).2 (by decide) (by decide)).1

/-- Inserting `x` into `l` with the descending-key order leaves the
subsequence of any fixed key class as it was, with `x` put in front of its
own class: the skipped prefix consists of strictly greater keys. -/
lemma filter_key_orderedInsert (v : Nat) (x : Item) (l : List Item) :
    (List.orderedInsert certOrd x l).filter (fun a => key_fn a == v) =
      (if key_fn x == v then x :: l.filter (fun a => key_fn a == v)
       else l.filter (fun a => key_fn a == v)) := by
  induction l with
  | nil =>
    by_cases hx : key_fn x = v <;>
      simp [List.orderedInsert, List.filter_cons, beq_iff_eq, hx]
  | cons y ys ih =>
    by_cases hr : certOrd x y
    · have hoi : List.orderedInsert certOrd x (y :: ys) = x :: y :: ys := by
        unfold List.orderedInsert
        rw [if_pos hr]
      rw [hoi]
      by_cases hx : key_fn x = v <;> simp [List.filter_cons, beq_iff_eq, hx]
    · have hoi : List.orderedInsert certOrd x (y :: ys) =
          y :: List.orderedInsert certOrd x ys := by
        rw [List.orderedInsert, if_neg hr]
      have hlt : key_fn x < key_fn y := Nat.lt_of_not_le hr
      rw [hoi, List.filter_cons, ih, List.filter_cons]
      by_cases hx : key_fn x = v
      · have hyv : ¬ key_fn y = v := by omega
        simp [beq_iff_eq, hx, hyv]
      · simp [beq_iff_eq, hx]

/-- Stability of the candidate sort: the subsequence of candidates whose
sort key equals any fixed value is preserved in order, i.e. key-ties keep
their original relative order. -/
lemma filter_key_sortCandidates (v : Nat) (l : List Item) :
    (sortCandidates l).filter (fun a => key_fn a == v) =
      l.filter (fun a => key_fn a == v) := by
  induction l with
  | nil => rfl
  | cons x xs ih =>
    unfold sortCandidates at ih ⊢
    rw [List.insertionSort, filter_key_orderedInsert, ih, List.filter_cons]

/-- Claim C4 counterexample: two candidates sharing a certificate number,
the first with an unparseable from-date, the second with from-date
1899-12-31.  The unparseable candidate's sentinel key 1900-01-01 exceeds
the parsed date, so it sorts FIRST, not last, and is the record picked. -/
theorem C4_counterexample :
    yyyymmdd_to_date (mkItem "c" "" "").vdatefrom = none ∧
    yyyymmdd_to_date (mkItem "c" "18991231" "").vdatefrom = some ⟨1899, 12, 31⟩ ∧
    sortCandidates [mkItem "c" "" "", mkItem "c" "18991231" ""] =
      [mkItem "c" "" "", mkItem "c" "18991231" ""] ∧
    pickCandidate [mkItem "c" "" "", mkItem "c" "18991231" ""] =
      some (mkItem "c" "" "") := by
  exact ⟨by decide, by decide, by decide, by decide⟩

/-- Claim C4 as amended: candidates are stably sorted by parsed from-date
descending, an unparseable from-date being replaced by the fixed sentinel
1900-01-01 (so an unparseable candidate sorts after candidates whose
from-date parses to a date after the sentinel, but not after candidates
dated 1900-01-01 or earlier), and the first after sorting is picked:
the sorted list is a permutation of the candidates, its keys are
descending, key-ties keep original order, and the pick is its head. -/
theorem C4_theorem (l : List Item) (v : Nat) :
    List.Sorted certOrd (sortCandidates l) ∧
    List.Perm (sortCandidates l) l ∧
    (sortCandidates l).filter (fun a => key_fn a == v) =
      l.filter (fun a => key_fn a == v) ∧
    (∀ a : Item, yyyymmdd_to_date a.vdatefrom = none →
       key_fn a = Date.key ⟨1900, 1, 1⟩) ∧
    pickCandidate l = (sortCandidates l).head? := by
  refine ⟨List.sorted_insertionSort certOrd l, List.perm_insertionSort certOrd l,
    filter_key_sortCandidates v l, ?_, rfl⟩
  intro a ha
  unfold key_fn
  rw [ha]
  rfl

/-- Claim C4 witness: the theorem applied to the spec's three-candidate
scenario (from-dates 2024-01-01, 2025-06-01, unparseable) and, for the
sentinel clause, to a concrete unparseable candidate. -/
theorem C4_witness :
    List.Sorted certOrd (sortCandidates
      [mkItem "c" "20240101" "", mkItem "c" "20250601" "", mkItem "c" "" ""]) ∧
    key_fn (mkItem "c" "" "") = Date.key ⟨1900, 1, 1⟩ := by
  constructor
  · exact (C4_theorem
      [mkItem "c" "20240101" "", mkItem "c" "20250601" "", mkItem "c" "" ""] 0).1
  · exact (C4_theorem [] 0).2.2.2.1 (mkItem "c" "" "") (by decide)

/-- The institution filter only ever narrows the record list. -/
lemma jisoknm_filter_subset (jn : String) (items : List Item) :
    jisoknm_filter jn items ⊆ items := by
  unfold jisoknm_filter
  split_ifs
  · exact List.filter_subset' _
  · exact fun a ha => ha

/-- A picked candidate is one of the candidates. -/
lemma pickCandidate_mem (l : List Item) (a : Item) (h : pickCandidate l = some a) :
    a ∈ l := by
  unfold pickCandidate at h
  have hmem : a ∈ sortCandidates l := by
    cases hs : sortCandidates l with
    | nil => rw [hs] at h; cases h
    | cons b t =>
      rw [hs] at h
      rw [List.head?_cons, Option.some_inj] at h
      rw [← h]
      exact List.mem_cons_self b t
  exact (List.mem_insertionSort certOrd).mp hmem

/-- Claim C7: whatever `search` returns, its aggregate counts are computed
over the returned filtered-and-annotated item set only; and a keyword
matching no record of the snapshot (here under a cache hit, so the
upstream call trivially succeeded) yields `rows_total = 0`, an empty item
list and a success result code. -/
theorem C7_theorem (st : Cache) (keyword jisoknm : String) (force : Bool) (now : ℤ)
    (today : Date) (u : Upstream) :
    (∀ (resp : SearchResponse) (st2 : Cache),
       search st keyword jisoknm force now today u = .ok (resp, st2) →
       resp.counts = compute_counts today (resp.items.map (fun a => a.item))) ∧
    (strip keyword ≠ "" →
     (∀ it ∈ st.items, pyIn (safe_lower keyword) (build_haystack it) = false) →
     cacheHit st force now →
       search st keyword jisoknm force now today u =
         .ok ({ resultCode := "00", resultMsg := "CACHED"
              , counts := zeroCounts, items := [] }, st)) := by
  constructor
  · intro resp st2 h
    unfold search at h
    rcases hg : get_items_cached st force now u with e | ⟨raw, stx⟩ <;> rw [hg] at h
    · cases h
    · dsimp only at h
      split_ifs at h with hc hk <;>
          rw [Except.ok.injEq, Prod.mk.injEq] at h <;>
          obtain ⟨h1, -⟩ := h <;>
          rw [← h1]
      all_goals rfl
  · intro hk hnone hhit
    have hg : get_items_cached st force now u = .ok (⟨"00", "CACHED", st.items⟩, st) := by
      unfold get_items_cached
      rw [if_pos hhit]
    unfold search
    rw [hg]
    dsimp only
    rw [if_neg (fun hcontra => hcontra rfl), if_pos hk]
    have h2 : (jisoknm_filter jisoknm st.items).filter
        (fun it => pyIn (safe_lower keyword) (build_haystack it)) = [] := by
      rw [List.filter_eq_nil_iff]
      intro a ha
      rw [hnone a (jisoknm_filter_subset jisoknm st.items ha)]
      exact Bool.false_ne_true
    rw [h2]
    rfl

/-- Claim C7 witness: the first part applied to a concrete successful
search (one VALID record, counts computed over the one returned item), the
second to the keyword "organic" matching nothing. -/
theorem C7_witness :
    ({ resultCode := "00", resultMsg := "CACHED", counts := ⟨1, 1, 0, 0, 0⟩
     , items := [annotate ⟨2024, 6, 1⟩ (mkItem "a" "20240101" "20241231")] }
        : SearchResponse).counts =
      compute_counts ⟨2024, 6, 1⟩
        ([annotate ⟨2024, 6, 1⟩ (mkItem "a" "20240101" "20241231")].map (fun a => a.item)) ∧
    search ⟨0, [mkItem "a" "20240101" "20241231"]⟩ "organic" "" false 30 ⟨2024, 6, 1⟩
        (.transportFail "x") =
      .ok ({ resultCode := "00", resultMsg := "CACHED", counts := zeroCounts, items := [] },
           ⟨0, [mkItem "a" "20240101" "20241231"]⟩) := by
  constructor
  · exact (C7_theorem ⟨0, [mkItem "a" "20240101" "20241231"]⟩ "" "" false 30 ⟨2024, 6, 1⟩
      (.transportFail "x")).1
      { resultCode := "00", resultMsg := "CACHED", counts := ⟨1, 1, 0, 0, 0⟩
      , items := [annotate ⟨2024, 6, 1⟩ (mkItem "a" "20240101" "20241231")] }
      ⟨0, [mkItem "a" "20240101" "20241231"]⟩ (by decide)
  · exact (C7_theorem ⟨0, [mkItem "a" "20240101" "20241231"]⟩ "organic" "" false 30
      ⟨2024, 6, 1⟩ (.transportFail "x")).2 (by decide) (by decide) (by decide)

/-- Claim C8 counterexample: a record whose stored certificate-number field
is "104-0153 " (trailing blank) is NOT equal to the trimmed input
"104-0153", yet the lookup selects it and reports found=true, because the
code also trims the record's field before comparing. -/
theorem C8_counterexample :
    (mkItem "104-0153 " "20240101" "20261231").certno ≠ "104-0153" ∧
    expiry ⟨0, [mkItem "104-0153 " "20240101" "20261231"]⟩ "104-0153" "" false 30
        ⟨2025, 1, 1⟩ (.transportFail "x") =
      .ok ({ resultCode := "00", resultMsg := "OK", found := true
           , expiry_date := "2026-12-31", validity := "VALID"
           , item := some (annotate ⟨2025, 1, 1⟩ (mkItem "104-0153 " "20240101" "20261231")) }
          , ⟨0, [mkItem "104-0153 " "20240101" "20261231"]⟩) := by
  exact ⟨by decide, by decide⟩

/-- Claim C8 as amended: candidate selection uses exact equality of the
TRIMMED certificate-number field against the trimmed input (still no
substring matching): any record the lookup reports found carries a
certificate number equal, after trimming, to the trimmed input; and when
no record of the (institution-filtered) snapshot matches this way, the
operation reports found=false together with the success result code. -/
theorem C8_theorem (st : Cache) (certno jisoknm : String) (force : Bool) (now : ℤ)
    (today : Date) (u : Upstream) :
    (∀ (resp : ExpiryResponse) (st2 : Cache),
       expiry st certno jisoknm force now today u = .ok (resp, st2) →
       resp.found = true →
       ∃ a : AnnItem, resp.item = some a ∧ strip a.item.certno = strip certno) ∧
    (cacheHit st force now →
     (∀ it ∈ jisoknm_filter jisoknm st.items, strip it.certno ≠ strip certno) →
       expiry st certno jisoknm force now today u =
         .ok ({ resultCode := "00", resultMsg := "OK", found := false
              , expiry_date := "", validity := "", item := none }, st)) := by
  constructor
  · intro resp st2 h hfound
    unfold expiry at h
    rcases hg : get_items_cached st force now u with e | ⟨raw, stx⟩ <;> rw [hg] at h
    · cases h
    · dsimp only at h
      split_ifs at h with hc
      · rw [Except.ok.injEq, Prod.mk.injEq] at h
        obtain ⟨h1, -⟩ := h
        rw [← h1] at hfound
        cases hfound
      · rcases hp : pickCandidate ((jisoknm_filter jisoknm raw.items).filter
            (fun it => strip it.certno == strip certno)) with _ | picked <;>
          rw [hp] at h
        · rw [Except.ok.injEq, Prod.mk.injEq] at h
          obtain ⟨h1, -⟩ := h
          rw [← h1] at hfound
          cases hfound
        · rw [Except.ok.injEq, Prod.mk.injEq] at h
          obtain ⟨h1, -⟩ := h
          have hmem := pickCandidate_mem _ _ hp
          rw [List.mem_filter] at hmem
          refine ⟨annotate today picked, ?_, eq_of_beq hmem.2⟩
          rw [← h1]
  · intro hhit hno
    have hg : get_items_cached st force now u = .ok (⟨"00", "CACHED", st.items⟩, st) := by
      unfold get_items_cached
      rw [if_pos hhit]
    unfold expiry
    rw [hg]
    dsimp only
    rw [if_neg (fun hcontra => hcontra rfl)]
    have h2 : (jisoknm_filter jisoknm st.items).filter
        (fun it => strip it.certno == strip certno) = [] := by
      rw [List.filter_eq_nil_iff]
      intro a ha hbeq
      exact hno a ha (eq_of_beq hbeq)
    rw [h2]
    rfl

/-- Claim C8 witness: the first part applied to a concrete found lookup,
the second to a certificate number matching nothing. -/
theorem C8_witness :
    (∃ a : AnnItem,
       ({ resultCode := "00", resultMsg := "OK", found := true
        , expiry_date := "2026-12-31", validity := "VALID"
        , item := some (annotate ⟨2025, 1, 1⟩ (mkItem "104-0153" "20240101" "20261231")) }
          : ExpiryResponse).item = some a ∧
       strip a.item.certno = strip "104-0153") ∧
    expiry ⟨0, [mkItem "104-0153" "20240101" "20261231"]⟩ "999" "" false 30 ⟨2025, 1, 1⟩
        (.transportFail "x") =
      .ok ({ resultCode := "00", resultMsg := "OK", found := false
           , expiry_date := "", validity := "", item := none }
          , ⟨0, [mkItem "104-0153" "20240101" "20261231"]⟩) := by
  constructor
  · exact (C8_theorem ⟨0, [mkItem "104-0153" "20240101" "20261231"]⟩ "104-0153" "" false 30
      ⟨2025, 1, 1⟩ (.transportFail "x")).1
      { resultCode := "00", resultMsg := "OK", found := true
      , expiry_date := "2026-12-31", validity := "VALID"
      , item := some (annotate ⟨2025, 1, 1⟩ (mkItem "104-0153" "20240101" "20261231")) }
      ⟨0, [mkItem "104-0153" "20240101" "20261231"]⟩ (by decide) rfl
  · exact (C8_theorem ⟨0, [mkItem "104-0153" "20240101" "20261231"]⟩ "999" "" false 30
      ⟨2025, 1, 1⟩ (.transportFail "x")).2 (by decide) (by decide)

/-- Claim C9: both endpoints are pure with respect to the record store —
the cache state they return is exactly the one produced by the cache
operation itself (the filter/annotate/resolve phase never writes back), and
every annotation is attached to a copy that embeds the original record
unchanged. -/
theorem C9_theorem (st : Cache) (keyword jisoknm certno : String) (force : Bool)
    (now : ℤ) (today : Date) (u : Upstream) :
    (search st keyword jisoknm force now today u).map (fun p => p.2) =
      (get_items_cached st force now u).map (fun p => p.2) ∧
    (expiry st certno jisoknm force now today u).map (fun p => p.2) =
      (get_items_cached st force now u).map (fun p => p.2) ∧
    (∀ it : Item, (annotate today it).item = it) := by
  refine ⟨?_, ?_, fun it => rfl⟩
  · unfold search
    rcases get_items_cached st force now u with e | ⟨raw, st2⟩
    · rfl
    · dsimp only
      split_ifs <;> rfl
  · unfold expiry
    rcases get_items_cached st force now u with e | ⟨raw, st2⟩
    · rfl
    · dsimp only
      split_ifs
      · rfl
      · rcases pickCandidate ((jisoknm_filter jisoknm raw.items).filter
            (fun it => strip it.certno == strip certno)) with _ | picked <;> rfl
